import Mathlib

/-!
Shallow embedding of `src/backend/server.js` (guiche-master-backend).

Conventions of the embedding:
* JS timestamps (`Date.now()`, ISO strings produced by `new Date().toISOString()`)
  are modelled as `Int` milliseconds since the epoch; within one request handler
  all clock reads are the single injected instant `now`.
* `Math.random()`-derived values are injected: the active-key selection
  `Math.floor(Math.random() * activeKeys.length)` is injected as a natural
  index (which is `< activeKeys.length` for every value of `Math.random()`
  in `[0,1)`), and the draw used by `generateOrderCode` is injected as the
  base-36 string `Math.random().toString(36)` it produces.
* `uuidv4()` results are injected as `String` parameters.
* JS string falsiness (`!s` true for `""`/`undefined`) is modelled by
  comparing with `""`, and by `jsTruthyStr` on optional fields.
* Request handlers are functions `State → args → State × ApiResult resp`
  (or pure when they do not mutate); `ApiResult.err status msg` carries the
  HTTP status code and the `error` string of the JSON failure body.
-/

/-- Result of an HTTP handler: success payload, or status code plus error string. -/
inductive ApiResult (α : Type) where
  | ok (val : α) : ApiResult α
  | err (status : Nat) (msg : String) : ApiResult α
deriving Repr, DecidableEq

/-- JS truthiness of an optional string field: `undefined` and `""` are falsy. -/
def jsTruthyStr : Option String → Bool
  | none => false
  | some s => s ≠ ""

/-- Embeds `s.replace(/\D/g, '')`: keep only digit characters. -/
def stripNonDigits (s : String) : String :=
  String.mk (s.data.filter Char.isDigit)

/-- Embeds the JS numeric short-circuit `a || b` on optional numeric fields:
`undefined` and `0` are falsy, so a present non-zero `a` wins, otherwise `b`
is returned as-is. -/
def jsOrNum : Option Int → Option Int → Option Int
  | none, b => b
  | some v, b => if v = 0 then b else some v

/-- Embeds JS `String.prototype.toUpperCase()` on the ASCII strings involved. -/
def jsToUpper (s : String) : String :=
  String.mk (s.data.map Char.toUpper)

/-- Embeds JS `s.substring(a, b)` (for `a ≤ b`): characters at indices `[a, b)`. -/
def jsSubstring (s : String) (a b : Nat) : String :=
  String.mk ((s.data.drop a).take (b - a))

/-- Digit character of value `n < 36` as produced by JS `Number.toString(36)`:
`0`-`9` then lowercase `a`-`z`. -/
def base36Digit (n : Nat) : Char :=
  if n < 10 then Char.ofNat (48 + n) else Char.ofNat (87 + n)

/-- Base-36 digit accumulator, fuel-indexed so that it reduces structurally:
prepend `n % 36` and recurse on `n / 36` until a single digit remains. The
fuel `n + 1` used below always suffices because the argument shrinks at every
step. -/
def toBase36Aux : Nat → Nat → List Char → List Char
  | 0, _, acc => acc
  | fuel + 1, n, acc =>
    let acc' := base36Digit (n % 36) :: acc
    if n < 36 then acc' else toBase36Aux fuel (n / 36) acc'

/-- Embeds JS `n.toString(36)` for a nonnegative integer `n`: base-36 digits,
most significant first, lowercase letters for digit values 10-35. -/
def toBase36 (n : Nat) : String :=
  String.mk (toBase36Aux (n + 1) n [])

-- ═══════════════════════════════════════════════════════════════════
-- Data model: PIX keys (KeyRegistry)
-- ═══════════════════════════════════════════════════════════════════

/-- A registered PIX key, as stored in the `pixKeys` array of the source. -/
structure PixKey where
  id : String
  key : String
  type : String
  name : String
  active : Bool
  createdAt : Int
  updatedAt : Option Int := none
deriving Repr, DecidableEq, Inhabited

/-- The frozen key snapshot stored inside an order
(`order.pixKey = { id, key, type, name }` built from fresh copies). -/
structure PixSnapshot where
  id : String
  key : String
  type : String
  name : String
deriving Repr, DecidableEq, Inhabited

/-- The snapshot object `{ id: pixKey.id, key: pixKey.key, type: pixKey.type,
name: pixKey.name }` built at order creation. -/
def PixKey.snapshot (k : PixKey) : PixSnapshot :=
  { id := k.id, key := k.key, type := k.type, name := k.name }

-- ═══════════════════════════════════════════════════════════════════
-- Data model: orders (OrderLedger)
-- ═══════════════════════════════════════════════════════════════════

/-- Customer sub-object of the request body of `POST /api/payment`.
`phone` is optional (`customer.phone?.…`). -/
structure CustomerInput where
  name : String
  email : String
  cpf : String
  phone : Option String := none
deriving Repr, DecidableEq

/-- Customer snapshot stored in an order: cpf and phone digit-stripped,
missing phone becoming `""`. -/
structure StoredCustomer where
  name : String
  email : String
  cpf : String
  phone : String
deriving Repr, DecidableEq, Inhabited

/-- A line item of the request body. Both unit-price spellings may be present. -/
structure ItemInput where
  title : String
  unitPrice : Option Int := none
  unit_price : Option Int := none
  quantity : Int
deriving Repr, DecidableEq

/-- A stored line item: `{ title, unitPrice: item.unitPrice || item.unit_price,
quantity }`. -/
structure StoredItem where
  title : String
  unitPrice : Option Int
  quantity : Int
deriving Repr, DecidableEq

/-- The per-item normalization performed by `items.map(...)` in the handler. -/
def normalizeItem (it : ItemInput) : StoredItem :=
  { title := it.title
    unitPrice := jsOrNum it.unitPrice it.unit_price
    quantity := it.quantity }

/-- An order as stored in the `orders` array. -/
structure Order where
  id : String
  code : String
  customer : StoredCustomer
  items : List StoredItem
  total : Int
  pixKey : PixSnapshot
  status : String
  createdAt : Int
  expiresAt : Int
  paidAt : Option Int := none
deriving Repr, DecidableEq, Inhabited

/-- The whole mutable payment state of the process: the `pixKeys` and `orders`
arrays. -/
structure AppState where
  pixKeys : List PixKey
  orders : List Order
deriving Repr, DecidableEq

/-- The module-load seed key (ids and timestamps as injected at startup). -/
def initialPixKeys (t0 : Int) : List PixKey :=
  [{ id := "1"
     key := "a9d156cf-2e35-4728-b5de-5bd3191f0485"
     type := "cpf"
     name := "Empresa LTDA"
     active := true
     createdAt := t0 }]

/-- The process state right after module load: the seed key, no orders. -/
def initialState (t0 : Int) : AppState :=
  { pixKeys := initialPixKeys t0, orders := [] }

-- ═══════════════════════════════════════════════════════════════════
-- KeyRegistry operations
-- ═══════════════════════════════════════════════════════════════════

/-- Embeds `getRandomPixKey()`. The source computes
`Math.floor(Math.random() * activeKeys.length)`, which is a natural number
`< activeKeys.length`; that index is injected here as `randomIndex`. -/
def getRandomPixKey (pixKeys : List PixKey) (randomIndex : Nat) : Option PixKey :=
  let activeKeys := pixKeys.filter (fun k => k.active)
  if activeKeys.length = 0 then none
  else activeKeys[randomIndex]?

/-- Embeds `POST /api/admin/pix-keys`: missing-field check, then capacity
check (`pixKeys.length >= 5`), then duplicate check
(`pixKeys.some(k => k.key === key)`), then push of a new active key. -/
def addPixKey (st : AppState) (key type name : String) (newId : String)
    (now : Int) : AppState × ApiResult PixKey :=
  if key = "" ∨ type = "" ∨ name = "" then
    (st, .err 400 "Campos obrigatórios: key, type, name")
  else if st.pixKeys.length ≥ 5 then
    (st, .err 400 "Limite de 5 chaves atingido")
  else if st.pixKeys.any (fun k => k.key == key) then
    (st, .err 400 "Chave já cadastrada")
  else
    let newKey : PixKey :=
      { id := newId, key := key, type := type, name := name
        active := true, createdAt := now }
    ({ st with pixKeys := st.pixKeys ++ [newKey] }, .ok newKey)

/-- The in-place field merge done by `PUT /api/admin/pix-keys/:id` on the
found element: each field present in the body overwrites, and `updatedAt`
is stamped. -/
def mergeKeyFields (k : PixKey) (key type name : Option String)
    (active : Option Bool) (now : Int) : PixKey :=
  { k with
    key := key.getD k.key
    type := type.getD k.type
    name := name.getD k.name
    active := active.getD k.active
    updatedAt := some now }

/-- Embeds `PUT /api/admin/pix-keys/:id`: `findIndex` by id, 404 when absent,
otherwise merge the supplied fields into that element. -/
def updatePixKey (st : AppState) (id : String) (key type name : Option String)
    (active : Option Bool) (now : Int) : AppState × ApiResult PixKey :=
  match st.pixKeys.findIdx? (fun k => k.id == id) with
  | none => (st, .err 404 "Chave não encontrada")
  | some i =>
    let merged := mergeKeyFields (st.pixKeys.get! i) key type name active now
    ({ st with pixKeys := st.pixKeys.set i merged }, .ok merged)

/-- Embeds `DELETE /api/admin/pix-keys/:id`: `findIndex` by id, 404 when
absent, otherwise `splice(index, 1)`. -/
def deletePixKey (st : AppState) (id : String) : AppState × ApiResult Unit :=
  match st.pixKeys.findIdx? (fun k => k.id == id) with
  | none => (st, .err 404 "Chave não encontrada")
  | some i =>
    ({ st with pixKeys := st.pixKeys.eraseIdx i }, .ok ())

/-- The key strings of all registered keys are pairwise distinct. -/
def keyStringsDistinct (ks : List PixKey) : Prop :=
  (ks.map (fun k => k.key)).Nodup

instance (ks : List PixKey) : Decidable (keyStringsDistinct ks) := by
  unfold keyStringsDistinct; infer_instance

-- ═══════════════════════════════════════════════════════════════════
-- OrderLedger operations
-- ═══════════════════════════════════════════════════════════════════

/-- The uppercased 4-character-window random part of an order code:
`Math.random().toString(36).substring(2, 6).toUpperCase()`, with the
base-36 rendering of the `Math.random()` draw injected as `randStr`. -/
def orderCodeRandomPart (randStr : String) : String :=
  jsToUpper (jsSubstring randStr 2 6)

/-- Embeds `generateOrderCode()`: the fixed leading part `GM`, the uppercased
base-36 creation timestamp, and the random part, dash-separated. -/
def generateOrderCode (nowMs : Nat) (randStr : String) : String :=
  "GM-" ++ jsToUpper (toBase36 nowMs) ++ "-" ++ orderCodeRandomPart randStr

/-- Client-facing payload of a successful `POST /api/payment`:
`order: {id, code, status, expiresAt}`, `pix: {key, type, name}`, `total`,
`message`. -/
structure PaymentResp where
  orderId : String
  orderCode : String
  orderStatus : String
  orderExpiresAt : Int
  pixKeyStr : String
  pixType : String
  pixName : String
  total : Int
  message : String
deriving Repr, DecidableEq

/-- The `order` object literal built by `POST /api/payment` after validation. -/
def buildOrder (customer : CustomerInput) (items : List ItemInput) (total : Int)
    (newId : String) (now : Nat) (randStr : String) (pixKey : PixKey) : Order :=
  { id := newId
    code := generateOrderCode now randStr
    customer :=
      { name := customer.name
        email := customer.email
        cpf := stripNonDigits customer.cpf
        phone := (customer.phone.map stripNonDigits).getD "" }
    items := items.map normalizeItem
    total := total
    pixKey := pixKey.snapshot
    status := "pending"
    createdAt := (now : Int)
    expiresAt := (now : Int) + 30 * 60 * 1000 }

/-- The success body of `POST /api/payment`, built from the stored order and
the selected key. -/
def buildPaymentResp (order : Order) (pixKey : PixKey) : PaymentResp :=
  { orderId := order.id
    orderCode := order.code
    orderStatus := order.status
    orderExpiresAt := order.expiresAt
    pixKeyStr := pixKey.key
    pixType := pixKey.type
    pixName := pixKey.name
    total := order.total
    message := "Copie a chave PIX e faça o pagamento" }

/-- Embeds `POST /api/payment`. Injected effects: `newId` (`uuidv4()`), `now`
(the single instant of this request, `Nat` so its base-36 rendering is the
JS one), `randomIndex` (key selection), `randStr` (order-code randomness). -/
def createPayment (st : AppState) (customer : CustomerInput)
    (items : List ItemInput) (total : Int) (newId : String) (now : Nat)
    (randomIndex : Nat) (randStr : String) : AppState × ApiResult PaymentResp :=
  if customer.name = "" ∨ customer.email = "" ∨ customer.cpf = "" then
    (st, .err 400 "Dados do cliente incompletos")
  else if items.length = 0 then
    (st, .err 400 "Nenhum item no carrinho")
  else
    match getRandomPixKey st.pixKeys randomIndex with
    | none => (st, .err 500 "Nenhuma chave PIX disponível")
    | some pixKey =>
      let order := buildOrder customer items total newId now randStr pixKey
      ({ st with orders := st.orders ++ [order] },
       .ok (buildPaymentResp order pixKey))

/-- The lookup predicate of both order endpoints:
`o.id === orderId || o.code === orderId`. -/
def orderMatches (orderId : String) (o : Order) : Bool :=
  o.id == orderId || o.code == orderId

/-- The in-place mutation `order.status = 'paid'; order.paidAt = …` of the
confirm handler. -/
def markPaid (now : Int) (o : Order) : Order :=
  { o with status := "paid", paidAt := some now }

/-- In-place mutation of the first order matching `orderId`
(`order.status = 'paid'; order.paidAt = …`), returning the new list and the
mutated order, or `none` when no order matches. -/
def setPaidFirst (orderId : String) (now : Int) :
    List Order → Option (List Order × Order)
  | [] => none
  | o :: rest =>
    if orderMatches orderId o then
      let upd := markPaid now o
      some (upd :: rest, upd)
    else
      match setPaidFirst orderId now rest with
      | none => none
      | some (rest', p) => some (o :: rest', p)

/-- Payload of a successful `POST /api/payment/:orderId/confirm`. -/
structure ConfirmResp where
  id : String
  code : String
  status : String
  paidAt : Option Int
deriving Repr, DecidableEq

/-- Embeds `POST /api/payment/:orderId/confirm`: `orders.find` by id or code,
404 when absent, otherwise mark paid and echo the updated order. -/
def confirmPayment (st : AppState) (orderId : String) (now : Int) :
    AppState × ApiResult ConfirmResp :=
  match setPaidFirst orderId now st.orders with
  | none => (st, .err 404 "Pedido não encontrado")
  | some (orders', o) =>
    ({ st with orders := orders' },
     .ok { id := o.id, code := o.code, status := o.status, paidAt := o.paidAt })

/-- Read view of `GET /api/order/:orderId`. -/
structure OrderView where
  id : String
  code : String
  status : String
  total : Int
  customerName : String
  customerEmail : String
  items : List StoredItem
  createdAt : Int
  expiresAt : Int
  paidAt : Option Int
deriving Repr, DecidableEq

/-- The view object built by `GET /api/order/:orderId` from a found order. -/
def Order.view (o : Order) : OrderView :=
  { id := o.id, code := o.code, status := o.status, total := o.total
    customerName := o.customer.name, customerEmail := o.customer.email
    items := o.items, createdAt := o.createdAt, expiresAt := o.expiresAt
    paidAt := o.paidAt }

/-- Embeds `GET /api/order/:orderId`: `orders.find` by id or code, 404 when
absent, otherwise the read view. -/
def getOrder (st : AppState) (orderId : String) : ApiResult OrderView :=
  match st.orders.find? (orderMatches orderId) with
  | none => .err 404 "Pedido não encontrado"
  | some o => .ok o.view

-- ═══════════════════════════════════════════════════════════════════
-- Analytics data model
-- ═══════════════════════════════════════════════════════════════════

/-- A stored page view (`analytics.pageViews` element). -/
structure PageView where
  id : String
  page : String
  eventId : Option String
  sessionId : String
  referrer : Option String
  userAgent : String
  ip : String
  timestamp : Int
deriving Repr, DecidableEq

/-- A ticket-selection payload appended by the `ticket_select` click action.
The arbitrary spread `...data` is kept abstract as a string payload. -/
structure TicketSelection where
  sessionId : String
  data : String
  timestamp : Int
deriving Repr, DecidableEq

/-- Per-event aggregate created by `initEventAnalytics` (the `clicks` object
is flattened into one counter per fixed action name). -/
structure EventStats where
  views : Nat
  uniqueViews : List String
  clicksIngressos : Nat
  clicksInfo : Nat
  clicksLocal : Nat
  clicksPdv : Nat
  clicksCheckout : Nat
  ticketSelections : List TicketSelection
  checkouts : Nat
  conversions : Nat
  totalRevenue : Int
deriving Repr, DecidableEq

/-- The zeroed stats object installed by `initEventAnalytics`. -/
def emptyEventStats : EventStats :=
  { views := 0, uniqueViews := [], clicksIngressos := 0, clicksInfo := 0
    clicksLocal := 0, clicksPdv := 0, clicksCheckout := 0
    ticketSelections := [], checkouts := 0, conversions := 0, totalRevenue := 0 }

/-- A conversion-funnel record (`analytics.conversions` element). -/
structure ConversionRecord where
  id : String
  eventId : Option String
  sessionId : String
  items : List ItemInput
  total : Int
  status : String
  orderId : Option String := none
  timestamp : Int
  completedAt : Option Int := none
deriving Repr, DecidableEq

/-- The whole `analytics` object. `events` is the JS object keyed by event
id, modelled as an insertion-ordered association list with unique keys. -/
structure Analytics where
  pageViews : List PageView
  events : List (String × EventStats)
  sessions : List String
  conversions : List ConversionRecord
deriving Repr, DecidableEq

/-- The empty analytics state (module load, and `POST /api/analytics/reset`). -/
def emptyAnalytics : Analytics :=
  { pageViews := [], events := [], sessions := [], conversions := [] }

-- ═══════════════════════════════════════════════════════════════════
-- Analytics operations
-- ═══════════════════════════════════════════════════════════════════

/-- Embeds `initEventAnalytics(eventId)`: install the zero stats object when
the key is absent. -/
def initEventAnalytics (events : List (String × EventStats)) (eid : String) :
    List (String × EventStats) :=
  if events.any (fun p => p.1 == eid) then events
  else events ++ [(eid, emptyEventStats)]

/-- In-place field update of `analytics.events[eventId]`. -/
def modifyEvent (events : List (String × EventStats)) (eid : String)
    (f : EventStats → EventStats) : List (String × EventStats) :=
  events.map (fun p => if p.1 == eid then (p.1, f p.2) else p)

/-- The stats object currently stored under `eid`, when present. -/
def findEvent (events : List (String × EventStats)) (eid : String) :
    Option EventStats :=
  (events.find? (fun p => p.1 == eid)).map (fun p => p.2)

/-- Embeds `POST /api/analytics/checkout`: bump the checkout counter when
`eventId` is truthy, and unconditionally append a `started` record. -/
def recordCheckoutStarted (a : Analytics) (eventId : Option String)
    (sessionId : String) (items : List ItemInput) (total : Int)
    (newId : String) (now : Int) : Analytics :=
  let a :=
    if jsTruthyStr eventId then
      match eventId with
      | some eid =>
        let evs := modifyEvent (initEventAnalytics a.events eid) eid
          (fun s => { s with checkouts := s.checkouts + 1 })
        { a with events := evs }
      | none => a
    else a
  { a with conversions := a.conversions ++
      [{ id := newId, eventId := eventId, sessionId := sessionId
         items := items, total := total, status := "started"
         timestamp := now }] }

/-- The predicate of the linear scan in `POST /api/analytics/conversion`:
`c.sessionId === sessionId && c.status === 'started'`. -/
def isStartedFor (sessionId : String) (c : ConversionRecord) : Bool :=
  c.sessionId == sessionId && c.status == "started"

/-- The in-place mutation applied to the found record:
`status = 'completed'; orderId = …; completedAt = …`. -/
def completeRecord (orderId : String) (now : Int) (c : ConversionRecord) :
    ConversionRecord :=
  { c with status := "completed", orderId := some orderId
           completedAt := some now }

/-- Mutate the first record matching the scan predicate (JS `Array.find`
returns the first match, which is then mutated in place); the rest of the
list is untouched, and nothing changes when no record matches. -/
def completeFirst (orderId sessionId : String) (now : Int) :
    List ConversionRecord → List ConversionRecord
  | [] => []
  | c :: rest =>
    if isStartedFor sessionId c then completeRecord orderId now c :: rest
    else c :: completeFirst orderId sessionId now rest

/-- Embeds `POST /api/analytics/conversion`: when `eventId` is truthy bump the
conversion counter and add `total` to the revenue; then promote the first
`started` record of the session, if any. -/
def recordConversionCompleted (a : Analytics) (eventId : Option String)
    (orderId : String) (sessionId : String) (total : Int) (now : Int) :
    Analytics :=
  let a :=
    if jsTruthyStr eventId then
      match eventId with
      | some eid =>
        let evs := modifyEvent (initEventAnalytics a.events eid) eid
          (fun s => { s with conversions := s.conversions + 1
                             totalRevenue := s.totalRevenue + total })
        { a with events := evs }
      | none => a
    else a
  { a with conversions := completeFirst orderId sessionId now a.conversions }

-- ═══════════════════════════════════════════════════════════════════
-- Dashboard: traffic-by-hour histogram
-- ═══════════════════════════════════════════════════════════════════

/-- Embeds `Date.prototype.getHours()` on an epoch-milliseconds instant
(hour of day; the deployment clock is modelled at UTC offset zero). -/
def getHoursOf (t : Int) : Int :=
  (t / 3600000) % 24

/-- One entry of the `trafficByHour` array: `{ hour, views: count }`. -/
structure HourBucket where
  hour : Int
  views : Nat
deriving Repr, DecidableEq

/-- Embeds the `trafficByHour` computation of `GET /api/analytics/dashboard`:
for `i` in `0..23` build the bucket at hour-of-day `now − i` hours, counting
page views strictly newer than `now − 24h` with that hour-of-day, then
reverse the 24-entry array. -/
def trafficByHour (pageViews : List PageView) (now : Int) : List HourBucket :=
  let last24h := now - 24 * 60 * 60 * 1000
  ((List.range 24).map (fun (i : Nat) =>
    let hour := getHoursOf (now - (i : Int) * 60 * 60 * 1000)
    let count := (pageViews.filter (fun pv =>
      last24h < pv.timestamp && getHoursOf pv.timestamp == hour)).length
    { hour := hour, views := count })).reverse

/-- Embeds the authorization gate plus `trafficByHour` portion of
`GET /api/analytics/dashboard`: `key !== ANALYTICS_SECRET` is a 401, the
configured secret being injected (`process.env.ANALYTICS_SECRET` with the
in-source default). -/
def dashboardTrafficByHour (a : Analytics) (analyticsSecret : String)
    (key : String) (now : Int) : ApiResult (List HourBucket) :=
  if key ≠ analyticsSecret then .err 401 "Chave de acesso inválida"
  else .ok (trafficByHour a.pageViews now)

/-- Embeds `POST /api/analytics/pageview`: append a page view unconditionally;
when `eventId` is truthy, bump the view counter and add the session to the
distinct-viewer set of that event. -/
def recordPageView (a : Analytics) (page : String) (eventId : Option String)
    (sessionId : String) (referrer : Option String) (userAgent ip : String)
    (newId : String) (now : Int) : Analytics :=
  let a := { a with pageViews := a.pageViews ++
    [{ id := newId, page := page, eventId := eventId, sessionId := sessionId
       referrer := referrer, userAgent := userAgent, ip := ip
       timestamp := now }] }
  if jsTruthyStr eventId then
    match eventId with
    | some eid =>
      let evs := modifyEvent (initEventAnalytics a.events eid) eid
        (fun s => { s with views := s.views + 1
                           uniqueViews :=
                             if sessionId ∈ s.uniqueViews then s.uniqueViews
                             else s.uniqueViews ++ [sessionId] })
      { a with events := evs }
    | none => a
  else a

/-- The in-source default of `process.env.ANALYTICS_SECRET`. -/
def defaultAnalyticsSecret : String := "guiche2024@analytics"

-- ═══════════════════════════════════════════════════════════════════
-- Concrete reachable states used by counterexamples and witnesses
-- ═══════════════════════════════════════════════════════════════════

/-- The key string of the module-load seed key. -/
def seedKeyStr : String := "a9d156cf-2e35-4728-b5de-5bd3191f0485"

/-- Registry with two keys: the seed plus one added key (id `2`). -/
def regStateTwo : AppState :=
  (addPixKey (initialState 1000) "k2" "email" "n2" "2" 0).1

/-- Registry filled to the 5-key cap by four successful adds after the seed. -/
def regStateFull : AppState :=
  (addPixKey
    (addPixKey
      (addPixKey
        (addPixKey (initialState 1000) "k2" "email" "n2" "2" 0).1
        "k3" "email" "n3" "3" 0).1
      "k4" "email" "n4" "4" 0).1
    "k5" "email" "n5" "5" 0).1

/-- A customer passing all `POST /api/payment` validations. -/
def cust1 : CustomerInput :=
  { name := "Ana", email := "ana@mail.com", cpf := "390.533.447-05" }

/-- A cart whose single item carries both unit-price spellings, the first
being `0`. -/
def itemsZeroPrice : List ItemInput :=
  [{ title := "Pista", unitPrice := some 0, unit_price := some 5, quantity := 1 }]

/-- A one-item cart with line sum `2 * 5 = 10`. -/
def itemsCheap : List ItemInput :=
  [{ title := "Pista", unitPrice := some 2, quantity := 5 }]

/-- Two orders created at the same instant with the same random draw: both
carry the order code `dupCode` but distinct ids. -/
def dupCodeState : AppState :=
  (createPayment
    (createPayment (initialState 0) cust1 itemsCheap 10 "id1" 5 0 "0.zz").1
    cust1 itemsCheap 10 "id2" 5 0 "0.zz").1

/-- The shared code of both orders of `dupCodeState`. -/
def dupCode : String := generateOrderCode 5 "0.zz"

/-- The state after confirming `dupCode` on `dupCodeState`. -/
def dupCodeAfter : AppState := (confirmPayment dupCodeState dupCode 99).1

/-- Analytics holding two `started` conversion records for session `s1`
(insertion order: ids `c1` then `c2`), built by two checkout calls. -/
def twoStartedAnalytics : Analytics :=
  recordCheckoutStarted
    (recordCheckoutStarted emptyAnalytics (some "E1") "s1" [] 10 "c1" 1)
    (some "E1") "s1" [] 12 "c2" 2

/-- Analytics holding one page view, recorded inside the last 24 hours of the
instant `100000000`. -/
def onePageViewAnalytics : Analytics :=
  recordPageView emptyAnalytics "/home" none "s1" none "ua" "1.1.1.1" "p1" 99000000

/-- An item carrying both unit-price spellings, the first one non-zero. -/
def itemBothPrices : ItemInput :=
  { title := "t", unitPrice := some 7, unit_price := some 9, quantity := 1 }

/-- The first `started` record held by `twoStartedAnalytics`. -/
def startedRecOne : ConversionRecord :=
  { id := "c1", eventId := some "E1", sessionId := "s1", items := []
    total := 10, status := "started", timestamp := 1 }

/-- The second `started` record held by `twoStartedAnalytics`. -/
def startedRecTwo : ConversionRecord :=
  { id := "c2", eventId := some "E1", sessionId := "s1", items := []
    total := 12, status := "started", timestamp := 2 }

-- ═══════════════════════════════════════════════════════════════════
-- Helper lemmas
-- ═══════════════════════════════════════════════════════════════════

theorem nodup_set_of_not_mem {β : Type} (l : List β) (i : Nat) (v : β)
    (hl : l.Nodup) (hv : v ∉ l) : (l.set i v).Nodup :=
  hl.set hv

theorem list_set_self {β : Type} (l : List β) (i : Nat) (h : i < l.length) :
    l.set i l[i] = l := by
  apply List.ext_getElem?
  intro j
  by_cases hij : i = j
  · subst hij
    rw [List.getElem?_set_self h, List.getElem?_eq_getElem h]
  · rw [List.getElem?_set_ne hij]

theorem createPayment_success (st : AppState) (c : CustomerInput)
    (items : List ItemInput) (total : Int) (newId : String) (now : Nat)
    (ridx : Nat) (rstr : String)
    (hn : c.name ≠ "") (he : c.email ≠ "") (hc : c.cpf ≠ "")
    (hi : items.length ≠ 0)
    (hr : ridx < (st.pixKeys.filter (fun k => k.active)).length) :
    ∃ k : PixKey,
      (st.pixKeys.filter (fun k => k.active))[ridx]? = some k ∧
      createPayment st c items total newId now ridx rstr =
        ({ st with orders := st.orders ++ [buildOrder c items total newId now rstr k] },
         .ok (buildPaymentResp (buildOrder c items total newId now rstr k) k)) := by
  have hne1 : ¬(c.name = "" ∨ c.email = "" ∨ c.cpf = "") := by
    push_neg; exact ⟨hn, he, hc⟩
  refine ⟨(st.pixKeys.filter (fun k => k.active))[ridx], ?_, ?_⟩
  · exact List.getElem?_eq_getElem hr
  · have hget : getRandomPixKey st.pixKeys ridx =
        some ((st.pixKeys.filter (fun k => k.active))[ridx]) := by
      unfold getRandomPixKey
      rw [if_neg (by omega)]
      exact List.getElem?_eq_getElem hr
    simp [createPayment, hne1, hi, hget]

-- ═══════════════════════════════════════════════════════════════════
-- Claim theorems
-- ═══════════════════════════════════════════════════════════════════

/-- C1 counterexample: `regStateFull` holds 5 keys and already contains the
seed key string, yet `add` with that very string fails with the capacity
error, not the duplicate-key error, because the handler checks
`pixKeys.length >= 5` before the duplicate scan. -/
theorem C1_counterexample :
    regStateFull.pixKeys.length = 5 ∧
    regStateFull.pixKeys.any (fun k => k.key == seedKeyStr) = true ∧
    (addPixKey regStateFull seedKeyStr "cpf" "X" "9" 0).2 =
      .err 400 "Limite de 5 chaves atingido" ∧
    (addPixKey regStateFull seedKeyStr "cpf" "X" "9" 0).2 ≠
      .err 400 "Chave já cadastrada" := by
  refine ⟨by decide, by decide, by decide, by decide⟩

/-- C1 (amended): the capacity check precedes the duplicate check, so on a
registry holding 5 keys a duplicate `add` fails with the capacity error; the
duplicate-key error is returned exactly when the registry holds fewer than 5
keys and the key string is already present (all three fields nonempty). -/
theorem C1_capacity_error_precedes_duplicate (st : AppState)
    (key type name newId : String) (now : Int)
    (hk : key ≠ "") (ht : type ≠ "") (hn : name ≠ "") :
    (st.pixKeys.length ≥ 5 →
      (addPixKey st key type name newId now).2 =
        .err 400 "Limite de 5 chaves atingido") ∧
    (st.pixKeys.length < 5 →
      st.pixKeys.any (fun k => k.key == key) = true →
      (addPixKey st key type name newId now).2 =
        .err 400 "Chave já cadastrada") := by
  have hne : ¬(key = "" ∨ type = "" ∨ name = "") := by
    push_neg; exact ⟨hk, ht, hn⟩
  constructor
  · intro h5
    simp [addPixKey, hne, h5]
  · intro h5 hdup
    have h5' : ¬ st.pixKeys.length ≥ 5 := by omega
    simp [addPixKey, hne, h5', hdup]

/-- C1 witness: the amended theorem evaluated on the reachable 5-key registry
(capacity error on a duplicate add) and on the 2-key registry (duplicate
error). -/
theorem C1_capacity_error_precedes_duplicate_witness :
    (addPixKey regStateFull seedKeyStr "cpf" "X" "9" 0).2 =
      .err 400 "Limite de 5 chaves atingido" ∧
    (addPixKey regStateTwo seedKeyStr "cpf" "X" "9" 0).2 =
      .err 400 "Chave já cadastrada" :=
  ⟨(C1_capacity_error_precedes_duplicate regStateFull seedKeyStr "cpf" "X" "9" 0
      (by decide) (by decide) (by decide)).1 (by decide),
   (C1_capacity_error_precedes_duplicate regStateTwo seedKeyStr "cpf" "X" "9" 0
      (by decide) (by decide) (by decide)).2 (by decide) (by decide)⟩

/-- C2 counterexample: starting from the reachable 2-key registry with
distinct key strings, `PUT /api/admin/pix-keys/2` setting `key` to the seed
key string succeeds and leaves two registered keys with the same key string:
the update handler performs no uniqueness check. -/
theorem C2_counterexample :
    keyStringsDistinct regStateTwo.pixKeys ∧
    ¬ keyStringsDistinct
        (updatePixKey regStateTwo "2" (some seedKeyStr) none none none 7).1.pixKeys := by
  refine ⟨by decide, by decide⟩

/-- C2 (amended): every registry operation preserves the size bound of 5;
`add` and `remove` also preserve key-string distinctness, and `update`
preserves it when it supplies no key string or a key string held by no
registered key — but an `update` supplying another key's string breaks it
(see the counterexample). -/
theorem C2_registry_invariant_preservation (st : AppState)
    (h5 : st.pixKeys.length ≤ 5) (hd : keyStringsDistinct st.pixKeys) :
    (∀ key type name newId now,
      (addPixKey st key type name newId now).1.pixKeys.length ≤ 5 ∧
      keyStringsDistinct (addPixKey st key type name newId now).1.pixKeys) ∧
    (∀ id, (deletePixKey st id).1.pixKeys.length ≤ 5 ∧
      keyStringsDistinct (deletePixKey st id).1.pixKeys) ∧
    (∀ id key type name active now,
      (updatePixKey st id key type name active now).1.pixKeys.length ≤ 5) ∧
    (∀ id type name active now,
      keyStringsDistinct (updatePixKey st id none type name active now).1.pixKeys) ∧
    (∀ id newKey type name active now,
      (∀ k ∈ st.pixKeys, k.key ≠ newKey) →
      keyStringsDistinct
        (updatePixKey st id (some newKey) type name active now).1.pixKeys) := by
  refine ⟨?_, ?_, ?_, ?_, ?_⟩
  · intro key type name newId now
    unfold addPixKey
    split
    · exact ⟨h5, hd⟩
    · split
      · exact ⟨h5, hd⟩
      · split
        · exact ⟨h5, hd⟩
        · rename_i hfields hcap hdup
          have hdup' : ∀ k ∈ st.pixKeys, k.key ≠ key := by
            intro k hk hEq
            exact hdup (List.any_eq_true.2 ⟨k, hk, by simp [hEq]⟩)
          constructor
          · simp only [List.length_append, List.length_cons, List.length_nil]
            omega
          · simp only [keyStringsDistinct, List.map_append, List.map_cons,
              List.map_nil]
            rw [List.nodup_append]
            refine ⟨hd, List.nodup_singleton _, ?_⟩
            intro a ha hb
            simp only [List.mem_singleton] at hb
            obtain ⟨k, hk, rfl⟩ := List.mem_map.1 ha
            exact hdup' k hk hb
  · intro id
    unfold deletePixKey
    cases hfind : st.pixKeys.findIdx? (fun k => k.id == id) with
    | none => exact ⟨h5, hd⟩
    | some i =>
      refine ⟨le_trans (List.eraseIdx_sublist _ _).length_le h5, ?_⟩
      exact List.Nodup.sublist ((List.eraseIdx_sublist _ _).map _) hd
  · intro id key type name active now
    unfold updatePixKey
    cases hfind : st.pixKeys.findIdx? (fun k => k.id == id) with
    | none => exact h5
    | some i => simpa using h5
  · intro id type name active now
    unfold updatePixKey
    cases hfind : st.pixKeys.findIdx? (fun k => k.id == id) with
    | none => exact hd
    | some i =>
      obtain ⟨hi, -, -⟩ := List.findIdx?_eq_some_iff_getElem.1 hfind
      have hget : st.pixKeys.get! i = st.pixKeys[i] := by
        rw [List.get!_eq_getD, List.getD_eq_getElem?_getD,
          List.getElem?_eq_getElem hi]
        rfl
      show keyStringsDistinct (st.pixKeys.set i _)
      unfold keyStringsDistinct
      rw [List.map_set]
      have hi2 : i < (st.pixKeys.map PixKey.key).length := by simpa using hi
      have hkey : (mergeKeyFields (st.pixKeys.get! i) none type name active now).key
          = (st.pixKeys.map PixKey.key).get ⟨i, hi2⟩ := by
        simp only [mergeKeyFields, hget, Option.getD_none, List.get_eq_getElem,
          List.getElem_map]
      rw [hkey, List.get_eq_getElem, list_set_self]
      exact hd
  · intro id newKey type name active now hfresh
    unfold updatePixKey
    cases hfind : st.pixKeys.findIdx? (fun k => k.id == id) with
    | none => exact hd
    | some i =>
      show keyStringsDistinct (st.pixKeys.set i _)
      unfold keyStringsDistinct
      rw [List.map_set]
      have hkey : (mergeKeyFields (st.pixKeys.get! i) (some newKey) type name active now).key
          = newKey := rfl
      rw [hkey]
      apply nodup_set_of_not_mem _ _ _ hd
      intro hmem
      obtain ⟨k, hk, hEq⟩ := List.mem_map.1 hmem
      exact hfresh k hk hEq

/-- C2 witness: the amended preservation theorem evaluated on the reachable
2-key registry for a fresh `add`. -/
theorem C2_registry_invariant_preservation_witness :
    (addPixKey regStateTwo "k9" "cpf" "n9" "9" 0).1.pixKeys.length ≤ 5 ∧
    keyStringsDistinct (addPixKey regStateTwo "k9" "cpf" "n9" "9" 0).1.pixKeys :=
  (C2_registry_invariant_preservation regStateTwo (by decide) (by decide)).1
    "k9" "cpf" "n9" "9" 0

/-- C8: a key update (any combination of fields) and a key removal leave the
`orders` array — and hence every order's frozen `pixKey` snapshot — untouched:
the snapshot is a fresh copy made at creation, not a live reference. -/
theorem C8_snapshot_immune_to_registry_ops (st : AppState) (id : String)
    (key type name : Option String) (active : Option Bool) (now : Int) :
    (updatePixKey st id key type name active now).1.orders = st.orders ∧
    (deletePixKey st id).1.orders = st.orders ∧
    ((updatePixKey st id key type name active now).1.orders.map (fun o => o.pixKey))
      = st.orders.map (fun o => o.pixKey) ∧
    ((deletePixKey st id).1.orders.map (fun o => o.pixKey))
      = st.orders.map (fun o => o.pixKey) := by
  have h1 : (updatePixKey st id key type name active now).1.orders = st.orders := by
    unfold updatePixKey
    cases st.pixKeys.findIdx? (fun k => k.id == id) <;> rfl
  have h2 : (deletePixKey st id).1.orders = st.orders := by
    unfold deletePixKey
    cases st.pixKeys.findIdx? (fun k => k.id == id) <;> rfl
  exact ⟨h1, h2, by rw [h1], by rw [h2]⟩

/-- C6 counterexample: a create call whose item carries `unitPrice: 0` and
`unit_price: 5` stores unit price `5`, not the supplied `unitPrice` value `0`:
the normalization `item.unitPrice || item.unit_price` falls through on the
falsy value `0`. -/
theorem C6_counterexample :
    (itemsZeroPrice.map (fun it => it.unitPrice)) = [some 0] ∧
    ((createPayment (initialState 0) cust1 itemsZeroPrice 5 "oid" 0 0 "0.abcd").1.orders.map
      (fun o => o.items)) =
      [[{ title := "Pista", unitPrice := some 5, quantity := 1 }]] := by
  exact ⟨by decide, by decide⟩

/-- C6 (amended): the stored unit price prefers `unitPrice` whenever it is
present and non-zero; when `unitPrice` is absent or `0` (a JS-falsy value)
the stored price is `unit_price`. The create call stores exactly
`items.map normalizeItem`. -/
theorem C6_unit_price_preference (st : AppState) (c : CustomerInput)
    (items : List ItemInput) (total : Int) (newId : String) (now : Nat)
    (ridx : Nat) (rstr : String)
    (hn : c.name ≠ "") (he : c.email ≠ "") (hc : c.cpf ≠ "")
    (hi : items.length ≠ 0)
    (hr : ridx < (st.pixKeys.filter (fun k => k.active)).length) :
    (∃ o : Order,
      (createPayment st c items total newId now ridx rstr).1.orders
        = st.orders ++ [o] ∧ o.items = items.map normalizeItem) ∧
    (∀ it : ItemInput, ∀ v : Int, it.unitPrice = some v → v ≠ 0 →
      (normalizeItem it).unitPrice = some v) ∧
    (∀ it : ItemInput, it.unitPrice = none ∨ it.unitPrice = some 0 →
      (normalizeItem it).unitPrice = it.unit_price) := by
  refine ⟨?_, ?_, ?_⟩
  · obtain ⟨k, -, hEq⟩ :=
      createPayment_success st c items total newId now ridx rstr hn he hc hi hr
    exact ⟨buildOrder c items total newId now rstr k, by rw [hEq], rfl⟩
  · intro it v hup hv
    simp [normalizeItem, jsOrNum, hup, hv]
  · intro it h
    rcases h with h | h <;> simp [normalizeItem, jsOrNum, h]

/-- C6 witness: the amended preference evaluated on a concrete item carrying
both fields with a non-zero first field. -/
theorem C6_unit_price_preference_witness :
    (normalizeItem itemBothPrices).unitPrice = some 7 :=
  (C6_unit_price_preference (initialState 0) cust1 itemsZeroPrice 5 "oid" 0 0
      "0.abcd" (by decide) (by decide) (by decide) (by decide) (by decide)).2.1
    itemBothPrices 7 rfl (by decide)

/-- C7 counterexample: `Math.random()` can return `0.5`, whose base-36
rendering is the three-character string `0.i`; the resulting order code is
`GM-0-I`, whose random suffix has length 1, not 4. -/
theorem C7_counterexample :
    generateOrderCode 0 "0.i" = "GM-0-I" ∧
    orderCodeRandomPart "0.i" = "I" ∧
    (orderCodeRandomPart "0.i").length = 1 := by
  exact ⟨by decide, by decide, by decide⟩

/-- C7 (amended): every order code is the fixed leading part `GM-`, the
uppercased base-36 creation timestamp, a dash, and the uppercased random
suffix, which is at most (not always exactly) 4 characters long — it is
shorter whenever the base-36 expansion of the random draw has fewer than 4
fractional digits. -/
theorem C7_order_code_shape (nowMs : Nat) (randStr : String) :
    generateOrderCode nowMs randStr =
      "GM-" ++ jsToUpper (toBase36 nowMs) ++ "-" ++ orderCodeRandomPart randStr ∧
    (orderCodeRandomPart randStr).length ≤ 4 := by
  refine ⟨rfl, ?_⟩
  have h : (orderCodeRandomPart randStr).length
      = (((randStr.data.drop 2).take (6 - 2)).map Char.toUpper).length := rfl
  rw [h, List.length_map, List.length_take]
  omega

/-- C3: a create call with non-empty name, email and national-id, a non-empty
cart, and a valid selection index into the active-key list succeeds, appends
an order with status `pending` whose `expiresAt` is `createdAt` plus exactly
30 minutes (both stamped at the single request instant), and whose key
snapshot is a copy of a key that is registered and active at call time. -/
theorem C3_create_pending_expiry_active_key (st : AppState) (c : CustomerInput)
    (items : List ItemInput) (total : Int) (newId : String) (now : Nat)
    (ridx : Nat) (rstr : String)
    (hn : c.name ≠ "") (he : c.email ≠ "") (hc : c.cpf ≠ "")
    (hi : items.length ≠ 0)
    (hr : ridx < (st.pixKeys.filter (fun k => k.active)).length) :
    ∃ (o : Order) (resp : PaymentResp) (k : PixKey),
      createPayment st c items total newId now ridx rstr =
        ({ st with orders := st.orders ++ [o] }, .ok resp) ∧
      o.status = "pending" ∧ resp.orderStatus = "pending" ∧
      o.createdAt = (now : Int) ∧
      o.expiresAt = o.createdAt + 30 * 60 * 1000 ∧
      resp.orderExpiresAt = o.expiresAt ∧
      k ∈ st.pixKeys ∧ k.active = true ∧
      o.pixKey = k.snapshot ∧ resp.pixKeyStr = k.key := by
  obtain ⟨k, hk, hEq⟩ :=
    createPayment_success st c items total newId now ridx rstr hn he hc hi hr
  have hkmem : k ∈ st.pixKeys.filter (fun k => k.active) :=
    List.getElem?_mem hk
  have hmem : k ∈ st.pixKeys := (List.mem_filter.1 hkmem).1
  have hact : k.active = true := by
    have := (List.mem_filter.1 hkmem).2
    simpa using this
  exact ⟨buildOrder c items total newId now rstr k,
    buildPaymentResp (buildOrder c items total newId now rstr k) k, k,
    hEq, rfl, rfl, rfl, rfl, rfl, hmem, hact, rfl, rfl⟩

/-- C3 witness: the theorem evaluated on the initial one-active-key state. -/
theorem C3_create_pending_expiry_active_key_witness :
    ∃ (o : Order) (resp : PaymentResp) (k : PixKey),
      createPayment (initialState 0) cust1 itemsCheap 10 "oid" 5 0 "0.abcd" =
        ({ initialState 0 with orders := (initialState 0).orders ++ [o] },
         .ok resp) ∧
      o.status = "pending" ∧ resp.orderStatus = "pending" ∧
      o.createdAt = ((5 : Nat) : Int) ∧
      o.expiresAt = o.createdAt + 30 * 60 * 1000 ∧
      resp.orderExpiresAt = o.expiresAt ∧
      k ∈ (initialState 0).pixKeys ∧ k.active = true ∧
      o.pixKey = k.snapshot ∧ resp.pixKeyStr = k.key :=
  C3_create_pending_expiry_active_key (initialState 0) cust1 itemsCheap 10
    "oid" 5 0 "0.abcd" (by decide) (by decide) (by decide) (by decide) (by decide)

/-- C10: the caller-supplied total is stored and echoed verbatim for every
successful create call — nothing compares it with the line items — and on a
concrete call the stored total (999) differs from the items' own sum (10),
so an order's total and items can be mutually inconsistent. -/
theorem C10_total_stored_verbatim :
    (∀ (st : AppState) (c : CustomerInput) (items : List ItemInput)
       (total : Int) (newId : String) (now : Nat) (ridx : Nat) (rstr : String),
      c.name ≠ "" → c.email ≠ "" → c.cpf ≠ "" → items.length ≠ 0 →
      ridx < (st.pixKeys.filter (fun k => k.active)).length →
      ∃ (o : Order) (resp : PaymentResp),
        createPayment st c items total newId now ridx rstr =
          ({ st with orders := st.orders ++ [o] }, .ok resp) ∧
        o.total = total ∧ resp.total = total) ∧
    (∃ (o : Order) (resp : PaymentResp),
      createPayment (initialState 0) cust1 itemsCheap 999 "oid" 0 0 "0.abcd" =
        ({ initialState 0 with orders := [o] }, .ok resp) ∧
      o.total = 999 ∧
      (o.items.map (fun it => it.unitPrice.getD 0 * it.quantity)).sum = 10 ∧
      o.total ≠ (o.items.map (fun it => it.unitPrice.getD 0 * it.quantity)).sum) := by
  constructor
  · intro st c items total newId now ridx rstr hn he hc hi hr
    obtain ⟨k, -, hEq⟩ :=
      createPayment_success st c items total newId now ridx rstr hn he hc hi hr
    exact ⟨buildOrder c items total newId now rstr k,
      buildPaymentResp (buildOrder c items total newId now rstr k) k,
      hEq, rfl, rfl⟩
  · obtain ⟨k, hk, hEq⟩ :=
      createPayment_success (initialState 0) cust1 itemsCheap 999 "oid" 0 0
        "0.abcd" (by decide) (by decide) (by decide) (by decide) (by decide)
    refine ⟨buildOrder cust1 itemsCheap 999 "oid" 0 "0.abcd" k,
      buildPaymentResp (buildOrder cust1 itemsCheap 999 "oid" 0 "0.abcd" k) k,
      ?_, rfl, ?_, ?_⟩
    · simpa using hEq
    · have : k = (initialPixKeys 0)[0] := by
        have : ((initialState 0).pixKeys.filter (fun k => k.active))[0]? = some k := hk
        simpa [initialState, initialPixKeys] using this.symm
      subst this
      decide
    · have : k = (initialPixKeys 0)[0] := by
        have : ((initialState 0).pixKeys.filter (fun k => k.active))[0]? = some k := hk
        simpa [initialState, initialPixKeys] using this.symm
      subst this
      decide

/-- C10 witness: the verbatim-total half evaluated on a concrete call. -/
theorem C10_total_stored_verbatim_witness :
    ∃ (o : Order) (resp : PaymentResp),
      createPayment (initialState 0) cust1 itemsCheap 777 "oid" 0 0 "0.abcd" =
        ({ initialState 0 with
            orders := (initialState 0).orders ++ [o] }, .ok resp) ∧
      o.total = 777 ∧ resp.total = 777 :=
  C10_total_stored_verbatim.1 (initialState 0) cust1 itemsCheap 777 "oid" 0 0
    "0.abcd" (by decide) (by decide) (by decide) (by decide) (by decide)

/-- C4: an authorized dashboard call returns a 24-entry `trafficByHour`
sequence; after the final reversal, the entry at position `j` is the bucket
built for iteration `i = 23 - j`: its hour is the hour-of-day of
`now - i` hours, and its count tallies the page views strictly newer than
`now - 24h` whose hour-of-day equals that bucket hour (a wall-clock
hour-of-day histogram that merges calendar days). -/
theorem C4_traffic_by_hour_reversed_histogram (a : Analytics)
    (analyticsSecret key : String) (now : Int) (hkey : key = analyticsSecret) :
    ∃ buckets : List HourBucket,
      dashboardTrafficByHour a analyticsSecret key now = .ok buckets ∧
      buckets.length = 24 ∧
      ∀ j, j < 24 →
        buckets[j]? = some
          { hour := getHoursOf (now - ((23 - j : Nat) : Int) * 60 * 60 * 1000)
            views := (a.pageViews.filter (fun pv =>
              decide (now - 24 * 60 * 60 * 1000 < pv.timestamp) &&
              (getHoursOf pv.timestamp ==
                getHoursOf (now - ((23 - j : Nat) : Int) * 60 * 60 * 1000)))).length } := by
  refine ⟨trafficByHour a.pageViews now, ?_, ?_, ?_⟩
  · simp [dashboardTrafficByHour, hkey]
  · simp only [trafficByHour]
    rw [List.length_reverse, List.length_map, List.length_range]
  · intro j hj
    show (trafficByHour a.pageViews now)[j]? = _
    simp only [trafficByHour]
    rw [List.getElem?_reverse
      (by rw [List.length_map, List.length_range]; omega)]
    simp only [List.length_map, List.length_range]
    rw [List.getElem?_map]
    have h2 : (24 - 1 - j) = (23 - j) := by omega
    rw [h2, List.getElem?_range (by omega)]
    rfl

/-- C4 witness: the histogram theorem evaluated for an authorized call on a
state holding one recent page view. -/
theorem C4_traffic_by_hour_reversed_histogram_witness :
    ∃ buckets : List HourBucket,
      dashboardTrafficByHour onePageViewAnalytics defaultAnalyticsSecret
        defaultAnalyticsSecret 100000000 = .ok buckets ∧
      buckets.length = 24 ∧
      ∀ j, j < 24 →
        buckets[j]? = some
          { hour := getHoursOf (100000000 - ((23 - j : Nat) : Int) * 60 * 60 * 1000)
            views := (onePageViewAnalytics.pageViews.filter (fun pv =>
              decide ((100000000 : Int) - 24 * 60 * 60 * 1000 < pv.timestamp) &&
              (getHoursOf pv.timestamp ==
                getHoursOf (100000000 - ((23 - j : Nat) : Int) * 60 * 60 * 1000)))).length } :=
  C4_traffic_by_hour_reversed_histogram onePageViewAnalytics
    defaultAnalyticsSecret defaultAnalyticsSecret 100000000 rfl

theorem findEvent_modifyEvent (evs : List (String × EventStats)) (eid : String)
    (f : EventStats → EventStats) :
    findEvent (modifyEvent evs eid f) eid = (findEvent evs eid).map f := by
  induction evs with
  | nil => rfl
  | cons p t ih =>
    by_cases h : p.1 = eid
    · simp [modifyEvent, findEvent, h]
    · have hb : (p.1 == eid) = false := by simp [h]
      simp only [modifyEvent, List.map_cons, findEvent, List.find?_cons, hb]
      simpa [findEvent, modifyEvent, hb] using ih

theorem findEvent_initEventAnalytics (evs : List (String × EventStats))
    (eid : String) :
    findEvent (initEventAnalytics evs eid) eid =
      some ((findEvent evs eid).getD emptyEventStats) := by
  induction evs with
  | nil => simp [initEventAnalytics, findEvent]
  | cons p t ih =>
    by_cases h : p.1 = eid
    · simp [initEventAnalytics, findEvent, h]
    · have hb : (p.1 == eid) = false := by simp [h]
      have hany : (p :: t).any (fun q => q.1 == eid) = t.any (fun q => q.1 == eid) := by
        simp [List.any_cons, hb]
      by_cases ht : t.any (fun q => q.1 == eid)
      · have : initEventAnalytics (p :: t) eid = p :: t := by
          simp [initEventAnalytics, hany, ht]
        rw [this]
        have ht' : initEventAnalytics t eid = t := by
          simp [initEventAnalytics, ht]
        have := ih
        rw [ht'] at this
        simpa [findEvent, List.find?_cons, hb] using this
      · have : initEventAnalytics (p :: t) eid = p :: (t ++ [(eid, emptyEventStats)]) := by
          simp [initEventAnalytics, hany, ht]
        rw [this]
        have ht' : initEventAnalytics t eid = t ++ [(eid, emptyEventStats)] := by
          simp [initEventAnalytics, ht]
        have := ih
        rw [ht'] at this
        simpa [findEvent, List.find?_cons, hb] using this

theorem findEvent_bump (evs : List (String × EventStats)) (eid : String)
    (f : EventStats → EventStats) :
    findEvent (modifyEvent (initEventAnalytics evs eid) eid f) eid =
      some (f ((findEvent evs eid).getD emptyEventStats)) := by
  rw [findEvent_modifyEvent, findEvent_initEventAnalytics]
  rfl

theorem completeFirst_no_match (oid s : String) (now : Int)
    (l : List ConversionRecord) (h : ∀ c ∈ l, isStartedFor s c = false) :
    completeFirst oid s now l = l := by
  induction l with
  | nil => rfl
  | cons c t ih =>
    have hc : isStartedFor s c = false := h c (.head _)
    simp only [completeFirst, hc, Bool.false_eq_true, if_false]
    rw [ih (fun x hx => h x (.tail _ hx))]

theorem completeFirst_first_match (oid s : String) (now : Int) :
    ∀ (l : List ConversionRecord) (i : Nat) (ci : ConversionRecord),
      l[i]? = some ci → isStartedFor s ci = true →
      (∀ k, k < i → ∀ ck, l[k]? = some ck → isStartedFor s ck = false) →
      (completeFirst oid s now l)[i]? = some (completeRecord oid now ci) ∧
      (∀ m, m ≠ i → (completeFirst oid s now l)[m]? = l[m]?) := by
  intro l
  induction l with
  | nil => intro i ci hci; simp at hci
  | cons c t ih =>
    intro i ci hci hstart hfirst
    by_cases hc : isStartedFor s c = true
    · have hi0 : i = 0 := by
        by_contra hne
        obtain ⟨i', rfl⟩ := Nat.exists_eq_succ_of_ne_zero hne
        have := hfirst 0 (Nat.succ_pos _) c (by simp)
        rw [hc] at this
        exact Bool.true_eq_false.mp this
      subst hi0
      simp only [List.getElem?_cons_zero, Option.some.injEq] at hci
      subst hci
      simp only [completeFirst, hc, if_true]
      refine ⟨by simp, ?_⟩
      intro m hm
      obtain ⟨m', rfl⟩ := Nat.exists_eq_succ_of_ne_zero hm
      simp
    · have hcf : isStartedFor s c = false := by
        cases hval : isStartedFor s c
        · rfl
        · exact absurd hval hc
      have hi0 : i ≠ 0 := by
        intro h0
        subst h0
        simp only [List.getElem?_cons_zero, Option.some.injEq] at hci
        subst hci
        rw [hstart] at hcf
        exact Bool.true_eq_false.mp hcf
      obtain ⟨i', rfl⟩ := Nat.exists_eq_succ_of_ne_zero hi0
      simp only [List.getElem?_cons_succ] at hci
      have hfirst' : ∀ k, k < i' → ∀ ck, t[k]? = some ck →
          isStartedFor s ck = false := by
        intro k hk ck hck
        exact hfirst (k + 1) (by omega) ck (by simpa using hck)
      obtain ⟨h1, h2⟩ := ih i' ci hci hstart hfirst'
      simp only [completeFirst, hcf, Bool.false_eq_true, if_false]
      refine ⟨by simpa using h1, ?_⟩
      intro m hm
      cases m with
      | zero => simp
      | succ m' =>
        simp only [List.getElem?_cons_succ]
        exact h2 m' (by omega)

/-- C5: `recordConversionCompleted` promotes exactly the first (insertion
order) `started` record of the session to `completed` (attaching the order id
and a completion timestamp) while every later `started` record of the same
session is left untouched; and when no `started` record matches the session,
the conversion list is unchanged while a truthy `eventId` still gets its
conversion counter and cumulative revenue bumped. -/
theorem C5_first_started_promoted (a : Analytics) (eventId : Option String)
    (orderId sessionId : String) (total now : Int) :
    ((∀ (i j : Nat) (ci cj : ConversionRecord),
      a.conversions[i]? = some ci → isStartedFor sessionId ci = true →
      (∀ k, k < i → ∀ ck, a.conversions[k]? = some ck →
        isStartedFor sessionId ck = false) →
      i < j → a.conversions[j]? = some cj → isStartedFor sessionId cj = true →
      (recordConversionCompleted a eventId orderId sessionId total now).conversions[i]?
        = some (completeRecord orderId now ci) ∧
      (recordConversionCompleted a eventId orderId sessionId total now).conversions[j]?
        = some cj ∧
      cj.status = "started")) ∧
    ((∀ c ∈ a.conversions, isStartedFor sessionId c = false) →
      (recordConversionCompleted a eventId orderId sessionId total now).conversions
        = a.conversions ∧
      (∀ eid, eventId = some eid → eid ≠ "" →
        findEvent (recordConversionCompleted a eventId orderId sessionId total now).events eid
          = some { (findEvent a.events eid).getD emptyEventStats with
                   conversions :=
                     ((findEvent a.events eid).getD emptyEventStats).conversions + 1
                   totalRevenue :=
                     ((findEvent a.events eid).getD emptyEventStats).totalRevenue + total })) := by
  have hconv : (recordConversionCompleted a eventId orderId sessionId total now).conversions
      = completeFirst orderId sessionId now a.conversions := by
    cases eventId with
    | none => rfl
    | some eid =>
      by_cases h : eid = ""
      · subst h; rfl
      · simp [recordConversionCompleted, jsTruthyStr, h]
  constructor
  · intro i j ci cj hci hstart hfirst hij hcj hcjstart
    obtain ⟨h1, h2⟩ := completeFirst_first_match orderId sessionId now
      a.conversions i ci hci hstart hfirst
    rw [hconv]
    refine ⟨h1, ?_, ?_⟩
    · rw [h2 j (by omega)]
      exact hcj
    · have := hcjstart
      simp only [isStartedFor, Bool.and_eq_true, beq_iff_eq] at this
      exact this.2
  · intro hnone
    constructor
    · rw [hconv, completeFirst_no_match _ _ _ _ hnone]
    · intro eid heid hne
      subst heid
      have hev : (recordConversionCompleted a (some eid) orderId sessionId total now).events
          = modifyEvent (initEventAnalytics a.events eid) eid
              (fun s => { s with conversions := s.conversions + 1
                                 totalRevenue := s.totalRevenue + total }) := by
        simp [recordConversionCompleted, jsTruthyStr, hne]
      rw [hev, findEvent_bump]

/-- C5 witness: on the reachable state holding two `started` records for
session `s1`, the call promotes the first and leaves the second `started`. -/
theorem C5_first_started_promoted_witness :
    (recordConversionCompleted twoStartedAnalytics (some "E1") "ord9" "s1" 12 99).conversions[0]?
      = some (completeRecord "ord9" 99 startedRecOne) ∧
    (recordConversionCompleted twoStartedAnalytics (some "E1") "ord9" "s1" 12 99).conversions[1]?
      = some startedRecTwo ∧
    startedRecTwo.status = "started" :=
  (C5_first_started_promoted twoStartedAnalytics (some "E1") "ord9" "s1" 12 99).1
    0 1 startedRecOne startedRecTwo (by decide) (by decide)
    (fun k hk => absurd hk (Nat.not_lt_zero k)) (by omega) (by decide) (by decide)

theorem find?_first_block (p : Order → Bool) (l₁ l₂ : List Order) (y : Order)
    (h1 : ∀ x ∈ l₁, p x = false) (hy : p y = true) :
    (l₁ ++ y :: l₂).find? p = some y := by
  have hnone : l₁.find? p = none := by
    rw [List.find?_eq_none]
    intro x hx
    rw [h1 x hx]
    exact Bool.false_ne_true
  rw [List.find?_append, hnone, Option.none_or, List.find?_cons_of_pos _ hy]

theorem setPaidFirst_decomp (acc : String) (now : Int) :
    ∀ l : List Order, ∀ o ∈ l, orderMatches acc o = true →
      ∃ l₁ o' l₂, l = l₁ ++ o' :: l₂ ∧
        (∀ x ∈ l₁, orderMatches acc x = false) ∧
        orderMatches acc o' = true ∧
        setPaidFirst acc now l =
          some (l₁ ++ markPaid now o' :: l₂, markPaid now o') := by
  intro l
  induction l with
  | nil => intro o ho; exact absurd ho (List.not_mem_nil o)
  | cons c t ih =>
    intro o ho hmo
    by_cases hc : orderMatches acc c = true
    · exact ⟨[], c, t, rfl, by simp, hc, by simp [setPaidFirst, hc]⟩
    · have hcf : orderMatches acc c = false := by
        cases hval : orderMatches acc c
        · rfl
        · exact absurd hval hc
      have hot : o ∈ t := by
        rcases List.mem_cons.1 ho with rfl | hot
        · rw [hmo] at hcf
          exact Bool.noConfusion hcf
        · exact hot
      obtain ⟨l₁, o', l₂, hdec, hl₁, ho', hset⟩ := ih o hot hmo
      refine ⟨c :: l₁, o', l₂, by rw [List.cons_append, hdec], ?_, ho', ?_⟩
      · intro x hx
        rcases List.mem_cons.1 hx with rfl | hx'
        · exact hcf
        · exact hl₁ x hx'
      · simp only [setPaidFirst, hcf, Bool.false_eq_true, if_false, hset,
          List.cons_append]

/-- C9 counterexample: two orders created at the same instant with the same
random draw share the code `GM-5-ZZ` while keeping distinct ids. Confirming
via that code succeeds but marks the first order paid, after which reading
the second order back by id yields a still-`pending` view while reading by
its code yields the paid view of the other order — the two accessors
disagree, refuting the claim for the second order. -/
theorem C9_counterexample :
    (dupCodeState.orders.map (fun o => o.code)) = [dupCode, dupCode] ∧
    (dupCodeState.orders.map (fun o => o.id)) = ["id1", "id2"] ∧
    getOrder dupCodeAfter "id2" ≠ getOrder dupCodeAfter dupCode ∧
    (∃ v : OrderView, getOrder dupCodeAfter "id2" = .ok v ∧
      v.status = "pending") := by
  refine ⟨by decide, by decide, by decide, ?_⟩
  refine ⟨{ id := "id2", code := "GM-5-ZZ", status := "pending", total := 10,
            customerName := "Ana", customerEmail := "ana@mail.com",
            items := [{ title := "Pista", unitPrice := some 2, quantity := 5 }],
            createdAt := 5, expiresAt := 1800005, paidAt := none }, by decide, rfl⟩

/-- C9 (amended): for a stored order whose id and code each match no other
stored order, confirm succeeds through either accessor with the same paid
response, and afterwards `get` by id and `get` by code return the identical,
now paid, view of that order. (The unrestricted claim fails when another
order shares the code, since both lookups take the first match — see the
counterexample.) -/
theorem C9_confirm_get_by_id_or_code (st : AppState) (o : Order) (now : Int)
    (acc : String) (hmem : o ∈ st.orders)
    (hid : ∀ x ∈ st.orders, orderMatches o.id x = true → x = o)
    (hcode : ∀ x ∈ st.orders, orderMatches o.code x = true → x = o)
    (hacc : acc = o.id ∨ acc = o.code) :
    ∃ st' : AppState,
      confirmPayment st acc now =
        (st', .ok { id := o.id, code := o.code, status := "paid",
                    paidAt := some now }) ∧
      getOrder st' o.id = .ok (markPaid now o).view ∧
      getOrder st' o.code = .ok (markPaid now o).view ∧
      (markPaid now o).view.status = "paid" ∧
      (markPaid now o).view.paidAt = some now := by
  have hmo : orderMatches acc o = true := by
    rcases hacc with rfl | rfl <;> simp [orderMatches]
  have huniq : ∀ x ∈ st.orders, orderMatches acc x = true → x = o := by
    rcases hacc with rfl | rfl
    · exact hid
    · exact hcode
  obtain ⟨l₁, o', l₂, hdec, hl₁, ho', hset⟩ :=
    setPaidFirst_decomp acc now st.orders o hmem hmo
  have ho'mem : o' ∈ st.orders := by
    rw [hdec]
    exact List.mem_append.2 (Or.inr (List.mem_cons_self _ _))
  have ho'' : o' = o := huniq o' ho'mem ho'
  subst ho''
  have hblock : ∀ ac, (ac = o'.id ∨ ac = o'.code) →
      (l₁ ++ markPaid now o' :: l₂).find? (orderMatches ac)
        = some (markPaid now o') := by
    intro ac hac
    apply find?_first_block
    · intro x hx
      cases hval : orderMatches ac x
      · rfl
      · have hxmem : x ∈ st.orders := by
          rw [hdec]
          exact List.mem_append.2 (Or.inl hx)
        have hxo : x = o' := by
          rcases hac with rfl | rfl
          · exact hid x hxmem hval
          · exact hcode x hxmem hval
        subst hxo
        rw [hl₁ x hx] at hmo
        exact absurd hmo Bool.false_ne_true
    · rcases hac with rfl | rfl <;> simp [orderMatches, markPaid]
  refine ⟨{ st with orders := l₁ ++ markPaid now o' :: l₂ }, ?_, ?_, ?_, rfl, rfl⟩
  · unfold confirmPayment
    rw [hset]
    rfl
  · simp only [getOrder, hblock o'.id (Or.inl rfl)]
  · simp only [getOrder, hblock o'.code (Or.inr rfl)]

/-- C9 witness: the amended theorem evaluated on a single-order ledger,
confirming through the order code. -/
theorem C9_confirm_get_by_id_or_code_witness :
    ∃ st' : AppState,
      confirmPayment
        (createPayment (initialState 0) cust1 itemsCheap 10 "id1" 5 0 "0.zz").1
        (generateOrderCode 5 "0.zz") 99 =
        (st', .ok { id := "id1", code := generateOrderCode 5 "0.zz",
                    status := "paid", paidAt := some 99 }) ∧
      getOrder st' "id1" =
        .ok (markPaid 99
          ((createPayment (initialState 0) cust1 itemsCheap 10 "id1" 5 0
            "0.zz").1.orders.headI)).view ∧
      getOrder st' (generateOrderCode 5 "0.zz") =
        .ok (markPaid 99
          ((createPayment (initialState 0) cust1 itemsCheap 10 "id1" 5 0
            "0.zz").1.orders.headI)).view ∧
      (markPaid 99
        ((createPayment (initialState 0) cust1 itemsCheap 10 "id1" 5 0
          "0.zz").1.orders.headI)).view.status = "paid" ∧
      (markPaid 99
        ((createPayment (initialState 0) cust1 itemsCheap 10 "id1" 5 0
          "0.zz").1.orders.headI)).view.paidAt = some 99 :=
  C9_confirm_get_by_id_or_code
    (createPayment (initialState 0) cust1 itemsCheap 10 "id1" 5 0 "0.zz").1
    ((createPayment (initialState 0) cust1 itemsCheap 10 "id1" 5 0
      "0.zz").1.orders.headI)
    99 (generateOrderCode 5 "0.zz") (by decide) (by decide) (by decide)
    (Or.inr (by decide))
